import Mathlib

/-!
Shallow embedding of the control core of the Automated Multiphase Flow
Analyzer System (src/src/plc_controller/): the PID controller
(pid_controller.py), the safety evaluator (safety_system.py), and the
scan-loop controller (main_controller.py).  Python floats are modelled
as rationals; wall-clock timing is passed in explicitly (the `dt`
argument, and a Boolean for the 30-second sampling timer); logging and
the performance-history ring buffer are omitted as they do not affect
any returned value or any field the claims mention.
-/

namespace PLC

/-- PID tunable parameters, mirroring the `PIDParameters` dataclass of
pid_controller.py (defaults as in the source). -/
structure PIDParameters where
  kp : ℚ := 1
  ki : ℚ := 0
  kd : ℚ := 0
  output_min : ℚ := 0
  output_max : ℚ := 100
  integral_limit : ℚ := 100
  derivative_filter_time : ℚ := 1/10
  deadband : ℚ := 0
  sample_time : ℚ := 1/10
deriving Repr

/-- Mutable internal state of a `PIDController` instance: `_last_error`,
`_integral`, `_last_derivative`, `_auto_mode`, `_manual_output`,
`_initialized` from pid_controller.py.  (`_last_time` is replaced by the
explicit `dt` argument of `update`; the `_error_history` /
`_output_history` diagnostic buffers are omitted.) -/
structure PIDState where
  last_error : ℚ := 0
  integral : ℚ := 0
  last_derivative : ℚ := 0
  auto_mode : Bool := true
  manual_output : ℚ := 0
  initialized : Bool := false
deriving Repr

/-- `PIDController._apply_output_limits`: clamp the output to
[output_min, output_max]. -/
def applyOutputLimits (p : PIDParameters) (output : ℚ) : ℚ :=
  if output > p.output_max then p.output_max
  else if output < p.output_min then p.output_min
  else output

/-- The integral clamp of `PIDController.update` (lines 129-132): limit
the accumulator to ±integral_limit. -/
def clampIntegral (p : PIDParameters) (i : ℚ) : ℚ :=
  if i > p.integral_limit then p.integral_limit
  else if i < -p.integral_limit then -p.integral_limit
  else i

/-- The integral-accumulation step of `PIDController.update` (lines
125-132): when dt > 0, add error × dt and clamp to ±integral_limit;
otherwise leave the accumulator untouched. -/
def integralAccum (p : PIDParameters) (integral error dt : ℚ) : ℚ :=
  if dt > 0 then clampIntegral p (integral + error * dt) else integral

/-- `PIDController.update`, returning (control output, new state).  The
`dt` argument is the elapsed time the Python code either receives or
derives from the wall clock; both paths end with a concrete number, so
it is taken as an input here.  Mirrors, in order: the first-call
initialization branch, the manual-mode bypass, the deadband, the P
term, the integral accumulation with clamp, the filtered derivative,
the output clamp, and the back-calculation anti-windup. -/
def update (p : PIDParameters) (s : PIDState) (error dt : ℚ) : ℚ × PIDState :=
  if !s.initialized then
    ((if !s.auto_mode then s.manual_output else 0),
      { s with last_error := error, initialized := true })
  else if !s.auto_mode then
    (s.manual_output, s)
  else
    let error := if |error| < p.deadband then 0 else error
    let proportional := p.kp * error
    let integral1 := integralAccum p s.integral error dt
    let integralTerm := p.ki * integral1
    let derivState :=
      if dt > 0 then
        let derivRaw := (error - s.last_error) / dt
        if p.derivative_filter_time > 0 then
          let alpha := dt / (p.derivative_filter_time + dt)
          let df := alpha * derivRaw + (1 - alpha) * s.last_derivative
          (df, df)
        else
          (derivRaw, derivRaw)
      else
        (0, s.last_derivative)
    let derivative := p.kd * derivState.1
    let output := proportional + integralTerm + derivative
    let outputLimited := applyOutputLimits p output
    let integral2 :=
      if output ≠ outputLimited ∧ p.ki ≠ 0 then
        integral1 + (outputLimited - output) / p.ki * dt
      else integral1
    (outputLimited,
      { s with last_error := error, integral := integral2,
               last_derivative := derivState.2 })

/-- `PIDController.set_auto_mode`: switch between automatic and manual
mode.  Manual→auto sets the integral accumulator to
manual_output / ki (0 when ki = 0) for bumpless transfer; auto→manual
stores the manual output. -/
def set_auto_mode (p : PIDParameters) (s : PIDState) (auto : Bool)
    (manual_output : ℚ) : PIDState :=
  if auto && !s.auto_mode then
    { s with integral := if p.ki ≠ 0 then manual_output / p.ki else 0,
             auto_mode := auto }
  else if !auto && s.auto_mode then
    { s with manual_output := manual_output, auto_mode := auto }
  else
    { s with auto_mode := auto }

/-- `PIDController.reset`: clear the running state; mode and manual
output are untouched. -/
def reset (s : PIDState) : PIDState :=
  { s with last_error := 0, integral := 0, last_derivative := 0,
           initialized := false }

/-- The `ProcessVariables` dataclass of main_controller.py (PLC memory
map), with the source defaults.  The `last_update` timestamp is
omitted: it records wall-clock time only. -/
structure ProcessVariables where
  flow_rate : ℚ := 0
  pressure_inlet : ℚ := 0
  pressure_outlet : ℚ := 0
  temperature : ℚ := 20
  density_measurement : ℚ := 850
  gas_volume_fraction : ℚ := 0
  water_cut : ℚ := 0
  oil_in_water_ppm : ℚ := 0
  inlet_valve_position : ℚ := 0
  outlet_valve_position : ℚ := 0
  sample_valve_state : Bool := false
  pump_speed : ℚ := 0
  flow_setpoint : ℚ := 100
  pressure_setpoint : ℚ := 25
  temperature_setpoint : ℚ := 60
  system_running : Bool := false
  emergency_stop : Bool := false
  maintenance_mode : Bool := false
  alarm_active : Bool := false
deriving Repr

/-- The `SafetyLimits` dataclass of safety_system.py (source
defaults). -/
structure SafetyLimits where
  max_pressure : ℚ := 35
  min_pressure : ℚ := 5
  max_temperature : ℚ := 80
  max_flow_rate : ℚ := 200
  max_oil_in_water : ℚ := 1000
deriving Repr

/-- The five interlock rules of `SafetySystem.check_safety`.  Each
recorded violation description in the source names exactly one of
these rules (with the offending value interpolated); the message text
itself carries no further state, so a violation is modelled by its
rule. -/
inductive SafetyRule where
  | highPressure
  | lowPressure
  | highTemperature
  | highFlowRate
  | highOilInWater
deriving Repr, DecidableEq

/-- Mutable state of a `SafetySystem` instance: `safety_violations`
and `trip_active`. -/
structure SafetyState where
  safety_violations : List SafetyRule := []
  trip_active : Bool := false
deriving Repr, DecidableEq

/-- The local `violations` list built by `SafetySystem.check_safety`
(lines 45-64): one entry per violated rule, in source order, with
every rule evaluated. -/
def violationsOf (L : SafetyLimits) (pv : ProcessVariables) : List SafetyRule :=
  (if pv.pressure_inlet > L.max_pressure then [.highPressure] else []) ++
  (if pv.pressure_inlet < L.min_pressure then [.lowPressure] else []) ++
  (if pv.temperature > L.max_temperature then [.highTemperature] else []) ++
  (if pv.flow_rate > L.max_flow_rate then [.highFlowRate] else []) ++
  (if pv.oil_in_water_ppm > L.max_oil_in_water then [.highOilInWater] else [])

/-- `SafetySystem.check_safety`: evaluate all interlock rules, update
the stored violations and `trip_active`, and return true when safe /
false on trip. -/
def check_safety (L : SafetyLimits) (_s : SafetyState)
    (pv : ProcessVariables) : Bool × SafetyState :=
  let violations := violationsOf L pv
  if violations ≠ [] then
    (false, { safety_violations := violations, trip_active := true })
  else
    (true, { safety_violations := [], trip_active := false })

/-- `SafetySystem.reset_safety_system`: explicit operator clear. -/
def reset_safety_system (_s : SafetyState) : SafetyState :=
  { safety_violations := [], trip_active := false }

/-- `PLCController._calculate_multiphase_properties`: derive gas
volume fraction, water cut and oil-in-water ppm from the measured
density (reference densities oil = 850, water = 1000). -/
def calculate_multiphase_properties (pv : ProcessVariables) :
    ProcessVariables :=
  let oil_density : ℚ := 850
  let water_density : ℚ := 1000
  let d := pv.density_measurement
  let gvf := if d < oil_density then (oil_density - d) / oil_density * 100 else 0
  let liquid_density := d * (1 - gvf / 100)
  let wc :=
    if liquid_density > oil_density then
      (liquid_density - oil_density) / (water_density - oil_density) * 100
    else 0
  let ppm := if wc > 50 then (100 - wc) * 10000 else 0
  { pv with gas_volume_fraction := gvf, water_cut := wc,
            oil_in_water_ppm := ppm }

/-- `PLCController._emergency_shutdown`: force the de-energized safe
state. -/
def emergency_shutdown (pv : ProcessVariables) : ProcessVariables :=
  { pv with system_running := false, pump_speed := 0,
            sample_valve_state := false, inlet_valve_position := 0,
            outlet_valve_position := 100 }

/-- `PLCController._sampling_sequence`.  The 30-second timer test uses
the wall clock, so its outcome is the Boolean parameter `sampleDue`
(false when fewer than 30 s have elapsed since the last sample).  When
due and the flow and pressure are stable, the source opens the sample
valve, sleeps 5 s, and closes it again: at the end of the step the
valve is closed. -/
def sampling_sequence (sampleDue : Bool) (pv : ProcessVariables) :
    ProcessVariables :=
  if !sampleDue then pv
  else
    let flow_stable := |pv.flow_rate - pv.flow_setpoint| < 5
    let pressure_stable := |pv.pressure_inlet - pv.pressure_setpoint| < 2
    if flow_stable ∧ pressure_stable then
      { pv with sample_valve_state := false }
    else pv

/-- `PLCController._quality_control`: recompute `alarm_active` from
the three quality thresholds. -/
def quality_control (pv : ProcessVariables) : ProcessVariables :=
  { pv with alarm_active :=
      decide (pv.oil_in_water_ppm > 1000 ∨ pv.gas_volume_fraction > 95 ∨
        pv.water_cut > 90) }

/-- Combined state of a `PLCController`: process variables, safety
system, and the two PID loops. -/
structure ControllerState where
  pv : ProcessVariables
  safety : SafetyState
  flow_controller : PIDState
  pressure_controller : PIDState
deriving Repr

/-- `PLCController._process_logic`: safety check first; on a trip or
an emergency stop run the emergency shutdown and return (skipping the
control computation); otherwise, when running and not in maintenance,
run both PID loops, the sampling sequence and quality control. -/
def process_logic (L : SafetyLimits) (fp pp : PIDParameters)
    (scan_time : ℚ) (sampleDue : Bool) (c : ControllerState) :
    ControllerState :=
  let r := check_safety L c.safety c.pv
  if !r.1 || c.pv.emergency_stop then
    { c with pv := emergency_shutdown c.pv, safety := r.2 }
  else if c.pv.system_running && !c.pv.maintenance_mode then
    let flow_error := c.pv.flow_setpoint - c.pv.flow_rate
    let fr := update fp c.flow_controller flow_error scan_time
    let pv1 := { c.pv with pump_speed := fr.1 }
    let pressure_error := pv1.pressure_setpoint - pv1.pressure_inlet
    let pr := update pp c.pressure_controller pressure_error scan_time
    let pv2 := { pv1 with inlet_valve_position := pr.1 }
    let pv3 := sampling_sequence sampleDue pv2
    let pv4 := quality_control pv3
    { pv := pv4, safety := r.2, flow_controller := fr.2,
      pressure_controller := pr.2 }
  else
    { c with safety := r.2 }

/-- `PLCController._input_scan`: when the system is running, perturb
flow, inlet pressure and temperature by the sensor deltas of this
cycle (`random.uniform` in the source, hence arbitrary parameters
here), clamp them to their physical ranges, and recompute the
multiphase properties; otherwise leave the variables untouched. -/
def input_scan (dflow dpress dtemp : ℚ) (pv : ProcessVariables) :
    ProcessVariables :=
  if pv.system_running then
    calculate_multiphase_properties
      { pv with
          flow_rate := max 0 (min 300 (pv.flow_rate + dflow)),
          pressure_inlet := max 0 (min 50 (pv.pressure_inlet + dpress)),
          temperature := max 10 (min 100 (pv.temperature + dtemp)) }
  else pv

/-- `PLCController._output_scan`: unconditionally clamp the three
analog outputs to [0, 100]. -/
def output_scan (pv : ProcessVariables) : ProcessVariables :=
  { pv with pump_speed := max 0 (min 100 pv.pump_speed),
            inlet_valve_position := max 0 (min 100 pv.inlet_valve_position),
            outlet_valve_position := max 0 (min 100 pv.outlet_valve_position) }

/-- `PLCController._handle_controller_fault`: the except-branch of the
scan loop, which routes any cycle error to the emergency shutdown. -/
def handle_controller_fault (pv : ProcessVariables) : ProcessVariables :=
  emergency_shutdown pv

/-- `PLCController.start_system`: start only when neither the
emergency stop nor maintenance mode is active; otherwise no field
changes. -/
def start_system (pv : ProcessVariables) : ProcessVariables :=
  if !pv.emergency_stop && !pv.maintenance_mode then
    { pv with system_running := true }
  else pv

/-- `PLCController.stop_system`: unconditionally stop. -/
def stop_system (pv : ProcessVariables) : ProcessVariables :=
  { pv with system_running := false }

/-- The five statements of the try-block of the scan loop in
`PLCController.start_controller`, in execution order. -/
inductive CycleStep where
  | inputScan
  | processLogic
  | outputScan
  | communicationUpdate
  | logData
deriving Repr, DecidableEq

/-- One iteration of the scan-loop body of
`PLCController.start_controller`.  `fault` names the step at which an
unhandled exception is raised this cycle (at entry to that step), or
`none` for a clean cycle; the except-branch of the loop then runs
`_handle_controller_fault` and the remaining steps of the cycle are
skipped.  `_communication_update` and `_log_data` only emit a snapshot
of the state, so they leave it unchanged.  Returns the post-cycle
state together with the list of scan steps that ran to completion. -/
def scan_cycle (L : SafetyLimits) (fp pp : PIDParameters) (scan_time : ℚ)
    (dflow dpress dtemp : ℚ) (sampleDue : Bool) (fault : Option CycleStep)
    (c : ControllerState) : ControllerState × List CycleStep :=
  if fault = some .inputScan then
    ({ c with pv := handle_controller_fault c.pv }, [])
  else
    let c1 := { c with pv := input_scan dflow dpress dtemp c.pv }
    if fault = some .processLogic then
      ({ c1 with pv := handle_controller_fault c1.pv }, [.inputScan])
    else
      let c2 := process_logic L fp pp scan_time sampleDue c1
      if fault = some .outputScan then
        ({ c2 with pv := handle_controller_fault c2.pv },
          [.inputScan, .processLogic])
      else
        let c3 := { c2 with pv := output_scan c2.pv }
        if fault = some .communicationUpdate then
          ({ c3 with pv := handle_controller_fault c3.pv },
            [.inputScan, .processLogic, .outputScan])
        else if fault = some .logData then
          ({ c3 with pv := handle_controller_fault c3.pv },
            [.inputScan, .processLogic, .outputScan, .communicationUpdate])
        else
          (c3, [.inputScan, .processLogic, .outputScan,
            .communicationUpdate, .logData])

/-- Per-rule interlock predicate, written from the spec's rule list
(section 4.2) to compare with the recorded violation descriptions of
`check_safety`. -/
def specRuleViolated (L : SafetyLimits) (pv : ProcessVariables) :
    SafetyRule → Prop
  | .highPressure => pv.pressure_inlet > L.max_pressure
  | .lowPressure => pv.pressure_inlet < L.min_pressure
  | .highTemperature => pv.temperature > L.max_temperature
  | .highFlowRate => pv.flow_rate > L.max_flow_rate
  | .highOilInWater => pv.oil_in_water_ppm > L.max_oil_in_water

/-! Helper lemmas shared by the claim theorems. -/

theorem applyOutputLimits_mem (p : PIDParameters)
    (h : p.output_min ≤ p.output_max) (x : ℚ) :
    p.output_min ≤ applyOutputLimits p x ∧ applyOutputLimits p x ≤ p.output_max := by
  unfold applyOutputLimits
  split_ifs <;> constructor <;> linarith

theorem applyOutputLimits_eq_self (p : PIDParameters) (x : ℚ)
    (h1 : p.output_min ≤ x) (h2 : x ≤ p.output_max) :
    applyOutputLimits p x = x := by
  unfold applyOutputLimits
  split_ifs <;> first | rfl | linarith

theorem clampIntegral_abs_le (p : PIDParameters) (hlim : 0 ≤ p.integral_limit)
    (i : ℚ) : |clampIntegral p i| ≤ p.integral_limit := by
  rw [abs_le]
  unfold clampIntegral
  split_ifs <;> constructor <;> linarith

theorem clampIntegral_eq_self (p : PIDParameters) (i : ℚ)
    (h : |i| ≤ p.integral_limit) : clampIntegral p i = i := by
  rw [abs_le] at h
  unfold clampIntegral
  split_ifs <;> first | rfl | linarith

/-! Claim C2. -/

/-- C2 (counterexample): the claim that every `update` return value
lies in [output_min, output_max] fails on the two paths that bypass
`_apply_output_limits`: the first call after construction of an
automatic controller with limits [10, 100] returns 0 < output_min, and
a manual-mode `update` with stored manual_output 200 and limits
[0, 100] returns 200 > output_max. -/
theorem update_output_outside_limits :
    (update { output_min := 10, output_max := 100 } {} 0 (1/10)).1 = 0 ∧
      ((10 : ℚ) > 0) ∧
    (update {} ({ auto_mode := false, manual_output := 200
                , initialized := true }) 0 (1/10)).1 = 200 ∧
      ((200 : ℚ) > 100) := by
  refine ⟨?_, by norm_num, ?_, by norm_num⟩ <;> norm_num [update]

/-- C2 (amended): for an initialized controller in automatic mode and
well-ordered limits, every value returned by `update` lies within
[output_min, output_max]; the first call after construction or reset
returns 0 (auto) or manual_output, and manual-mode calls return
manual_output, none of which pass through the output clamp. -/
theorem update_output_within_limits (p : PIDParameters) (s : PIDState)
    (e dt : ℚ) (hmm : p.output_min ≤ p.output_max)
    (hinit : s.initialized = true) (hauto : s.auto_mode = true) :
    p.output_min ≤ (update p s e dt).1 ∧
      (update p s e dt).1 ≤ p.output_max := by
  unfold update
  rw [hinit, hauto]
  simp only [Bool.not_true, Bool.false_eq_true, if_false]
  exact applyOutputLimits_mem p hmm _

/-- C2 (witness). -/
theorem update_output_within_limits_witness :
    ({ output_min := 0, output_max := 100 } : PIDParameters).output_min ≤
      (update { output_min := 0, output_max := 100 }
        { initialized := true } 5 1).1 ∧
    (update { output_min := 0, output_max := 100 }
        { initialized := true } 5 1).1 ≤
      ({ output_min := 0, output_max := 100 } : PIDParameters).output_max :=
  update_output_within_limits _ _ 5 1 (by norm_num) rfl rfl

/-! Claim C3. -/

/-- C3 (counterexample): the integral-accumulator bound fails after the
back-calculation anti-windup correction.  With kp = ki = 1, limits
[0, 100], integral_limit = 100, an initialized automatic controller
receiving error 1000 with dt = 1 saturates the output (raw 1100,
clamped 100), and the back-calculation then drives the accumulator to
−900, whose magnitude exceeds integral_limit = 100. -/
theorem update_integral_exceeds_limit :
    (update { kp := 1, ki := 1, output_min := 0, output_max := 100 }
        { initialized := true } 1000 1).2.integral = -900 ∧
    |(-900 : ℚ)| >
      ({ kp := 1, ki := 1, output_min := 0,
          output_max := 100 } : PIDParameters).integral_limit := by
  constructor
  · norm_num [update, integralAccum, clampIntegral, applyOutputLimits]
  · rw [abs_neg, abs_of_nonneg (by norm_num : (0:ℚ) ≤ 900)]
    norm_num

/-- C3 (amended): for dt > 0 and a nonnegative integral_limit, the
accumulate-and-clamp step of `update` (lines 125-132 of
pid_controller.py) always leaves the accumulator used for the integral
term within ±integral_limit; and whenever ki = 0 — so that the
back-calculation correction is disabled — the accumulator stored at
the end of an automatic, initialized `update` call satisfies the same
bound.  (With ki ≠ 0 and a saturated output the subsequent
back-calculation can leave the stored accumulator outside the
bound.) -/
theorem update_integral_clamped (p : PIDParameters) (dt : ℚ)
    (hlim : 0 ≤ p.integral_limit) (hdt : 0 < dt) :
    (∀ i e : ℚ, |integralAccum p i e dt| ≤ p.integral_limit) ∧
    (∀ (s : PIDState) (e : ℚ), s.auto_mode = true → s.initialized = true →
      p.ki = 0 → |(update p s e dt).2.integral| ≤ p.integral_limit) := by
  constructor
  · intro i e
    unfold integralAccum
    rw [if_pos hdt]
    exact clampIntegral_abs_le p hlim _
  · intro s e hauto hinit hki
    unfold update
    rw [hinit, hauto]
    simp only [Bool.not_true, Bool.false_eq_true, if_false, hki, ne_eq,
      not_true_eq_false, and_false]
    unfold integralAccum
    rw [if_pos hdt]
    exact clampIntegral_abs_le p hlim _

/-- C3 (witness). -/
theorem update_integral_clamped_witness :
    |integralAccum { kp := 1, ki := 1 } 0 5 1| ≤
      ({ kp := 1, ki := 1 } : PIDParameters).integral_limit :=
  (update_integral_clamped { kp := 1, ki := 1 } 1 (by norm_num)
    (by norm_num)).1 0 5

/-! Claim C9. -/

/-- C9: in manual mode `update` returns exactly the stored
manual_output for every error and dt, touching neither the integral
accumulator nor the derivative filter state. -/
theorem update_manual_mode (p : PIDParameters) (s : PIDState) (e dt : ℚ)
    (h : s.auto_mode = false) :
    (update p s e dt).1 = s.manual_output ∧
    (update p s e dt).2.integral = s.integral ∧
    (update p s e dt).2.last_derivative = s.last_derivative ∧
    (update p s e dt).2.manual_output = s.manual_output := by
  cases hI : s.initialized <;> simp [update, hI, h]

/-- C9 (witness). -/
theorem update_manual_mode_witness :
    (update {} ({ auto_mode := false, manual_output := 42
                , initialized := true }) 7 1).1 =
      ({ auto_mode := false, manual_output := 42
       , initialized := true } : PIDState).manual_output :=
  (update_manual_mode {} _ 7 1 rfl).1

/-! Claim C10. -/

/-- C10: `start_system` sets system_running only when both
emergency_stop and maintenance_mode are clear, and otherwise leaves
the process state entirely unchanged; `stop_system` unconditionally
clears system_running. -/
theorem start_system_guard (pv : ProcessVariables) :
    (pv.emergency_stop = false → pv.maintenance_mode = false →
      start_system pv = { pv with system_running := true }) ∧
    (pv.emergency_stop = true ∨ pv.maintenance_mode = true →
      start_system pv = pv) ∧
    (stop_system pv).system_running = false := by
  refine ⟨fun h1 h2 => ?_, fun h => ?_, rfl⟩
  · simp [start_system, h1, h2]
  · rcases h with h | h <;> simp [start_system, h]

/-- C10 (witness). -/
theorem start_system_guard_witness :
    start_system ({ emergency_stop := true } : ProcessVariables) =
      ({ emergency_stop := true } : ProcessVariables) ∧
    start_system ({} : ProcessVariables) =
      { ({} : ProcessVariables) with system_running := true } :=
  ⟨(start_system_guard _).2.1 (Or.inl rfl),
   (start_system_guard _).1 rfl rfl⟩

/-! Claims C4 and C5: the safety evaluator. -/

theorem mem_violationsOf (L : SafetyLimits) (pv : ProcessVariables)
    (r : SafetyRule) :
    r ∈ violationsOf L pv ↔ specRuleViolated L pv r := by
  cases r <;>
    simp only [violationsOf, specRuleViolated, List.mem_append] <;>
    split_ifs <;> simp_all

/-- C4: `check_safety` evaluates every interlock rule: it returns
false exactly when at least one rule is violated, records exactly the
violated rules (one entry each, no duplicates, no short-circuiting)
and sets trip_active exactly when a violation exists; and at
pressure_inlet = max_pressure + 0.1 with every other value at its
nominal default it returns false, trips, and lists exactly one
violation. -/
theorem check_safety_complete :
    (∀ (L : SafetyLimits) (s : SafetyState) (pv : ProcessVariables),
      ((check_safety L s pv).1 = false ↔ ∃ r, specRuleViolated L pv r) ∧
      (∀ r, r ∈ (check_safety L s pv).2.safety_violations ↔
        specRuleViolated L pv r) ∧
      ((check_safety L s pv).2.trip_active = true ↔
        ∃ r, specRuleViolated L pv r) ∧
      ((check_safety L s pv).2.safety_violations).Nodup) ∧
    ((check_safety ({} : SafetyLimits) {}
        ({ pressure_inlet := 351/10 } : ProcessVariables)).1 = false ∧
      (check_safety ({} : SafetyLimits) {}
        ({ pressure_inlet := 351/10 } : ProcessVariables)).2.trip_active
        = true ∧
      ((check_safety ({} : SafetyLimits) {}
        ({ pressure_inlet := 351/10 } : ProcessVariables)).2.safety_violations).length = 1) := by
  constructor
  · intro L s pv
    have hmem := mem_violationsOf L pv
    have hex : (∃ r, specRuleViolated L pv r) ↔ violationsOf L pv ≠ [] := by
      constructor
      · rintro ⟨r, hr⟩ hnil
        exact absurd ((hmem r).mpr hr) (by simp [hnil])
      · intro hne
        rcases List.exists_mem_of_ne_nil _ hne with ⟨r, hr⟩
        exact ⟨r, (hmem r).mp hr⟩
    have hnodup : (violationsOf L pv).Nodup := by
      unfold violationsOf
      split_ifs <;> decide
    unfold check_safety
    dsimp only
    split_ifs with hv
    · simp only [true_and]
      exact ⟨by simpa using hex.mpr hv, hmem,
        by simpa using hex.mpr hv, hnodup⟩
    · push_neg at hv
      refine ⟨by simpa using fun h => (hex.mp h) hv, ?_,
        by simpa using fun h => (hex.mp h) hv, by simp⟩
      intro r
      simp only [List.not_mem_nil, false_iff]
      intro hr
      exact (hex.mp ⟨r, hr⟩) hv
  · refine ⟨?_, ?_, ?_⟩ <;>
      norm_num [check_safety, violationsOf]

/-- C5 (counterexample): a tripped safety evaluator is cleared by
`check_safety` itself, without any operator acknowledgment: starting
from trip_active = true with a recorded violation, a single
`check_safety` call on in-limit process values (inlet pressure 25 bar,
all other fields at defaults) sets trip_active back to false and
empties the violation list. -/
theorem check_safety_clears_trip :
    ((check_safety ({} : SafetyLimits)
        ({ safety_violations := [.highPressure], trip_active := true })
        ({ pressure_inlet := 25 } : ProcessVariables)).2).trip_active
      = false ∧
    ((check_safety ({} : SafetyLimits)
        ({ safety_violations := [.highPressure], trip_active := true })
        ({ pressure_inlet := 25 } : ProcessVariables)).2).safety_violations
      = [] := by
  constructor <;> norm_num [check_safety, violationsOf]

/-- C5 (amended): `check_safety` recomputes trip_active and the
violation list from scratch on every call, independently of the prior
state — a passing check therefore clears an active trip automatically;
`reset_safety_system` is an additional explicit clear. -/
theorem check_safety_recomputes_trip (L : SafetyLimits) (s : SafetyState)
    (pv : ProcessVariables) :
    ((check_safety L s pv).2.trip_active = true ↔ violationsOf L pv ≠ []) ∧
    (check_safety L s pv).2.safety_violations = violationsOf L pv ∧
    (reset_safety_system s).trip_active = false ∧
    (reset_safety_system s).safety_violations = [] := by
  unfold check_safety reset_safety_system
  dsimp only
  split_ifs with hv <;> simp_all

/-! Claim C6: derived multiphase properties. -/

/-- C6 (counterexample): the derived-property bounds fail at
density_measurement = 1050: the calculation yields
water_cut = 400/3 > 100 and oil_in_water_ppm = −1000000/3 < 0. -/
theorem multiphase_properties_out_of_range :
    (calculate_multiphase_properties
        ({ density_measurement := 1050 } : ProcessVariables)).water_cut
      > 100 ∧
    (calculate_multiphase_properties
        ({ density_measurement := 1050 } : ProcessVariables)).oil_in_water_ppm
      < 0 := by
  constructor <;> norm_num [calculate_multiphase_properties]

/-- C6 (amended): for every density_measurement in [0, 1000], the
derived-property calculation leaves gas_volume_fraction and water_cut
in [0, 100] and oil_in_water_ppm nonnegative.  (Above 1000 water_cut
exceeds 100 and the ppm formula goes negative; below 0
gas_volume_fraction exceeds 100.) -/
theorem multiphase_properties_bounds (pv : ProcessVariables)
    (h0 : 0 ≤ pv.density_measurement)
    (h1 : pv.density_measurement ≤ 1000) :
    (0 ≤ (calculate_multiphase_properties pv).gas_volume_fraction ∧
      (calculate_multiphase_properties pv).gas_volume_fraction ≤ 100) ∧
    (0 ≤ (calculate_multiphase_properties pv).water_cut ∧
      (calculate_multiphase_properties pv).water_cut ≤ 100) ∧
    0 ≤ (calculate_multiphase_properties pv).oil_in_water_ppm := by
  unfold calculate_multiphase_properties
  dsimp only
  split_ifs <;>
    refine ⟨⟨?_, ?_⟩, ⟨?_, ?_⟩, ?_⟩ <;>
    first
      | linarith
      | nlinarith [sq_nonneg pv.density_measurement,
          sq_nonneg (pv.density_measurement - 850)]

/-- C6 (witness). -/
theorem multiphase_properties_bounds_witness :
    (0 ≤ (calculate_multiphase_properties
        ({ density_measurement := 900 } : ProcessVariables)).gas_volume_fraction ∧
      (calculate_multiphase_properties
        ({ density_measurement := 900 } : ProcessVariables)).gas_volume_fraction ≤ 100) ∧
    (0 ≤ (calculate_multiphase_properties
        ({ density_measurement := 900 } : ProcessVariables)).water_cut ∧
      (calculate_multiphase_properties
        ({ density_measurement := 900 } : ProcessVariables)).water_cut ≤ 100) ∧
    0 ≤ (calculate_multiphase_properties
        ({ density_measurement := 900 } : ProcessVariables)).oil_in_water_ppm :=
  multiphase_properties_bounds _ (by norm_num) (by norm_num)

/-! Claim C1: the emergency-shutdown path of the scan cycle. -/

theorem input_scan_emergency_stop (a b t : ℚ) (pv : ProcessVariables) :
    (input_scan a b t pv).emergency_stop = pv.emergency_stop := by
  unfold input_scan calculate_multiphase_properties
  split <;> rfl

theorem input_scan_alarm_active (a b t : ℚ) (pv : ProcessVariables) :
    (input_scan a b t pv).alarm_active = pv.alarm_active := by
  unfold input_scan calculate_multiphase_properties
  split <;> rfl

theorem process_logic_emergency (L : SafetyLimits) (fp pp : PIDParameters)
    (scan_time : ℚ) (sampleDue : Bool) (c : ControllerState)
    (h : (check_safety L c.safety c.pv).1 = false ∨
      c.pv.emergency_stop = true) :
    process_logic L fp pp scan_time sampleDue c =
      { c with pv := emergency_shutdown c.pv,
               safety := (check_safety L c.safety c.pv).2 } := by
  unfold process_logic
  dsimp only
  rcases h with h | h <;> rw [h] <;> simp

theorem output_scan_emergency_shutdown (pv : ProcessVariables) :
    output_scan (emergency_shutdown pv) = emergency_shutdown pv := by
  unfold output_scan emergency_shutdown
  norm_num [min_def, max_def]

theorem scan_cycle_none (L : SafetyLimits) (fp pp : PIDParameters)
    (scan_time a b t : ℚ) (sampleDue : Bool) (c : ControllerState) :
    scan_cycle L fp pp scan_time a b t sampleDue none c =
      ({ process_logic L fp pp scan_time sampleDue
            { c with pv := input_scan a b t c.pv } with
          pv := output_scan (process_logic L fp pp scan_time sampleDue
            { c with pv := input_scan a b t c.pv }).pv },
        [.inputScan, .processLogic, .outputScan, .communicationUpdate,
          .logData]) :=
  rfl

/-- C1: in any cycle where the safety check trips on the freshly
scanned inputs or the emergency-stop flag is set, the scan loop runs
the emergency shutdown: after the cycle, system_running = false,
pump_speed = 0, sample_valve_state = false, inlet_valve_position = 0,
outlet_valve_position = 100, and the control-computation step is
skipped — both PID controller states and the alarm flag are exactly as
before the cycle. -/
theorem scan_cycle_emergency_shutdown (L : SafetyLimits)
    (fp pp : PIDParameters) (scan_time dflow dpress dtemp : ℚ)
    (sampleDue : Bool) (c : ControllerState)
    (h : (check_safety L c.safety
        (input_scan dflow dpress dtemp c.pv)).1 = false ∨
      c.pv.emergency_stop = true) :
    let r := (scan_cycle L fp pp scan_time dflow dpress dtemp sampleDue
      none c).1
    r.pv.system_running = false ∧ r.pv.pump_speed = 0 ∧
    r.pv.sample_valve_state = false ∧ r.pv.inlet_valve_position = 0 ∧
    r.pv.outlet_valve_position = 100 ∧
    r.flow_controller = c.flow_controller ∧
    r.pressure_controller = c.pressure_controller ∧
    r.pv.alarm_active = c.pv.alarm_active := by
  intro r
  have h' : (check_safety L
      ({ c with pv := input_scan dflow dpress dtemp c.pv }).safety
      ({ c with pv := input_scan dflow dpress dtemp c.pv }).pv).1 = false ∨
      ({ c with pv := input_scan dflow dpress dtemp c.pv }).pv.emergency_stop
        = true := by
    rcases h with h | h
    · exact Or.inl h
    · exact Or.inr ((input_scan_emergency_stop dflow dpress dtemp c.pv).trans h)
  have hr : r =
      { ({ c with pv := input_scan dflow dpress dtemp c.pv }) with
          pv := emergency_shutdown (input_scan dflow dpress dtemp c.pv),
          safety := (check_safety L c.safety
            (input_scan dflow dpress dtemp c.pv)).2 } := by
    show ((scan_cycle L fp pp scan_time dflow dpress dtemp sampleDue
      none c).1) = _
    rw [scan_cycle_none,
      process_logic_emergency L fp pp scan_time sampleDue _ h']
    simp [output_scan_emergency_shutdown]
  rw [hr]
  refine ⟨rfl, rfl, rfl, rfl, rfl, rfl, rfl, ?_⟩
  exact input_scan_alarm_active dflow dpress dtemp c.pv

/-- C1 (witness). -/
theorem scan_cycle_emergency_shutdown_witness :
    let r := (scan_cycle {} {} {} (1/10) 0 0 0 false none
      ({ pv := { emergency_stop := true }, safety := {},
         flow_controller := {}, pressure_controller := {} })).1
    r.pv.system_running = false ∧ r.pv.pump_speed = 0 ∧
    r.pv.sample_valve_state = false ∧ r.pv.inlet_valve_position = 0 ∧
    r.pv.outlet_valve_position = 100 ∧
    r.flow_controller = ({} : PIDState) ∧
    r.pressure_controller = ({} : PIDState) ∧
    r.pv.alarm_active = false :=
  scan_cycle_emergency_shutdown {} {} {} (1/10) 0 0 0 false
    ({ pv := { emergency_stop := true }, safety := {},
       flow_controller := {}, pressure_controller := {} })
    (Or.inr rfl)

/-! Claim C7: cycle faults and output clamping. -/

theorem emergency_shutdown_output_bounds (pv : ProcessVariables) :
    0 ≤ (emergency_shutdown pv).pump_speed ∧
    (emergency_shutdown pv).pump_speed ≤ 100 ∧
    0 ≤ (emergency_shutdown pv).inlet_valve_position ∧
    (emergency_shutdown pv).inlet_valve_position ≤ 100 ∧
    0 ≤ (emergency_shutdown pv).outlet_valve_position ∧
    (emergency_shutdown pv).outlet_valve_position ≤ 100 := by
  norm_num [emergency_shutdown]

theorem output_scan_output_bounds (pv : ProcessVariables) :
    0 ≤ (output_scan pv).pump_speed ∧
    (output_scan pv).pump_speed ≤ 100 ∧
    0 ≤ (output_scan pv).inlet_valve_position ∧
    (output_scan pv).inlet_valve_position ≤ 100 ∧
    0 ≤ (output_scan pv).outlet_valve_position ∧
    (output_scan pv).outlet_valve_position ≤ 100 := by
  unfold output_scan
  refine ⟨le_max_left 0 _, max_le (by norm_num) (min_le_left 100 _),
    le_max_left 0 _, max_le (by norm_num) (min_le_left 100 _),
    le_max_left 0 _, max_le (by norm_num) (min_le_left 100 _)⟩

/-- C7 (counterexample): in a cycle whose `_process_logic` step raises,
the step-5 clamping is not performed for that cycle — `_output_scan` is
not among the steps that ran — and the pre-existing pump_speed of 150
ends at the emergency-shutdown value 0, not at the value 100 that the
step-5 clamp would have produced. -/
theorem scan_cycle_fault_skips_clamp :
    CycleStep.outputScan ∉
      (scan_cycle {} {} {} (1/10) 0 0 0 false (some .processLogic)
        ({ pv := { pump_speed := 150 }, safety := {},
           flow_controller := {}, pressure_controller := {} })).2 ∧
    (scan_cycle {} {} {} (1/10) 0 0 0 false (some .processLogic)
        ({ pv := { pump_speed := 150 }, safety := {},
           flow_controller := {}, pressure_controller := {} })).1.pv.pump_speed
      = 0 ∧
    (output_scan ({ pump_speed := 150 } : ProcessVariables)).pump_speed
      = 100 ∧
    (0 : ℚ) ≠ 100 := by
  refine ⟨?_, rfl, ?_, by norm_num⟩
  · decide
  · norm_num [output_scan, min_def, max_def]

/-- C7 (amended): any unhandled error in a scan step is caught at the
cycle boundary and routed to the emergency shutdown, and the loop is
ready for the next cycle; but the step-5 clamp runs only when no
earlier step failed — in a faulted cycle the remaining steps are
skipped.  The outputs are nonetheless within [0, 100] after every
cycle: a clean cycle ends with the unconditional `_output_scan` clamp,
and a faulted cycle ends with the emergency-shutdown values 0, 0, 100.
-/
theorem scan_cycle_safe_outputs (L : SafetyLimits) (fp pp : PIDParameters)
    (scan_time dflow dpress dtemp : ℚ) (sampleDue : Bool)
    (fault : Option CycleStep) (c : ControllerState) :
    (∀ st : CycleStep, fault = some st →
      (scan_cycle L fp pp scan_time dflow dpress dtemp sampleDue fault
          c).1.pv.pump_speed = 0 ∧
      (scan_cycle L fp pp scan_time dflow dpress dtemp sampleDue fault
          c).1.pv.inlet_valve_position = 0 ∧
      (scan_cycle L fp pp scan_time dflow dpress dtemp sampleDue fault
          c).1.pv.outlet_valve_position = 100 ∧
      (scan_cycle L fp pp scan_time dflow dpress dtemp sampleDue fault
          c).1.pv.system_running = false ∧
      (scan_cycle L fp pp scan_time dflow dpress dtemp sampleDue fault
          c).1.pv.sample_valve_state = false) ∧
    (0 ≤ (scan_cycle L fp pp scan_time dflow dpress dtemp sampleDue fault
        c).1.pv.pump_speed ∧
      (scan_cycle L fp pp scan_time dflow dpress dtemp sampleDue fault
        c).1.pv.pump_speed ≤ 100 ∧
      0 ≤ (scan_cycle L fp pp scan_time dflow dpress dtemp sampleDue fault
        c).1.pv.inlet_valve_position ∧
      (scan_cycle L fp pp scan_time dflow dpress dtemp sampleDue fault
        c).1.pv.inlet_valve_position ≤ 100 ∧
      0 ≤ (scan_cycle L fp pp scan_time dflow dpress dtemp sampleDue fault
        c).1.pv.outlet_valve_position ∧
      (scan_cycle L fp pp scan_time dflow dpress dtemp sampleDue fault
        c).1.pv.outlet_valve_position ≤ 100) := by
  cases fault with
  | none =>
    refine ⟨fun st hst => Option.noConfusion hst, ?_⟩
    rw [scan_cycle_none]
    exact output_scan_output_bounds
      (process_logic L fp pp scan_time sampleDue
        { c with pv := input_scan dflow dpress dtemp c.pv }).pv
  | some st =>
    cases st <;>
      exact ⟨fun _ _ => ⟨rfl, rfl, rfl, rfl, rfl⟩,
        emergency_shutdown_output_bounds _⟩

/-- C7 (witness for the amended theorem). -/
theorem scan_cycle_safe_outputs_witness :
    (scan_cycle {} {} {} (1/10) 0 0 0 false (some .processLogic)
      ({ pv := {}, safety := {}, flow_controller := {},
         pressure_controller := {} })).1.pv.pump_speed = 0 ∧
    0 ≤ (scan_cycle {} {} {} (1/10) 0 0 0 false (some .processLogic)
      ({ pv := {}, safety := {}, flow_controller := {},
         pressure_controller := {} })).1.pv.pump_speed :=
  ⟨((scan_cycle_safe_outputs {} {} {} (1/10) 0 0 0 false
      (some .processLogic) _).1 .processLogic rfl).1,
    (scan_cycle_safe_outputs {} {} {} (1/10) 0 0 0 false
      (some .processLogic) _).2.1⟩

/-! Claim C8: bumpless manual→auto transfer. -/

/-- C8: switching a manual-mode controller to automatic via
`set_auto_mode` with manual output M presets the integral accumulator
to M / ki (to 0 when ki = 0); consequently — for ki ≠ 0, an
initialized controller whose previous error and filtered derivative
are zero, dt > 0, M / ki within the integral limit and M within the
output limits — the next automatic `update` with error 0 returns
exactly M. -/
theorem set_auto_mode_bumpless (p : PIDParameters) (s : PIDState)
    (M dt : ℚ) (hmanual : s.auto_mode = false) :
    ((set_auto_mode p s true M).integral =
      if p.ki ≠ 0 then M / p.ki else 0) ∧
    (p.ki ≠ 0 → s.initialized = true → s.last_error = 0 →
      s.last_derivative = 0 → 0 < dt →
      |M / p.ki| ≤ p.integral_limit →
      p.output_min ≤ M → M ≤ p.output_max →
      (update p (set_auto_mode p s true M) 0 dt).1 = M) := by
  have hs : set_auto_mode p s true M =
      { s with integral := if p.ki ≠ 0 then M / p.ki else 0,
               auto_mode := true } := by
    unfold set_auto_mode
    rw [hmanual]
    simp
  constructor
  · rw [hs]
  · intro hki hinit hlast hlastd hdt hlim hmin hmax
    rw [hs]
    unfold update
    simp only [hinit, hki, ne_eq, not_false_eq_true, if_true,
      Bool.not_true, Bool.false_eq_true, if_false]
    have hint : integralAccum p (M / p.ki) 0 dt = M / p.ki := by
      unfold integralAccum
      rw [if_pos hdt, zero_mul, add_zero, clampIntegral_eq_self p _ hlim]
    rw [ite_self]
    rw [hint]
    rw [show p.ki * (M / p.ki) = M by
      rw [mul_comm, div_mul_cancel₀ M hki]]
    rw [hlast, hlastd]
    have hout : p.kp * 0 + M + p.kd *
        (if dt > 0 then
          if p.derivative_filter_time > 0 then
            (dt / (p.derivative_filter_time + dt) * (((0:ℚ) - 0) / dt) +
              (1 - dt / (p.derivative_filter_time + dt)) * 0,
              dt / (p.derivative_filter_time + dt) * (((0:ℚ) - 0) / dt) +
              (1 - dt / (p.derivative_filter_time + dt)) * 0)
          else (((0:ℚ) - 0) / dt, ((0:ℚ) - 0) / dt)
        else ((0:ℚ), (0:ℚ))).1 = M := by
      split_ifs <;> ring
    rw [hout, applyOutputLimits_eq_self p M hmin hmax]

/-- C8 (witness): ki = 1/2, integral limit 100, output limits
[0, 100], manual output 50: after the switch the accumulator is
50 / (1/2) = 100 and the next automatic update with error 0 and dt = 1
returns exactly 50. -/
theorem set_auto_mode_bumpless_witness :
    ((set_auto_mode ({ ki := 1/2 }) ({ auto_mode := false, initialized := true }) true 50).integral =
      if (({ ki := 1/2 } : PIDParameters)).ki ≠ 0 then
        50 / (({ ki := 1/2 } : PIDParameters)).ki else 0) ∧
    (update ({ ki := 1/2 }) (set_auto_mode ({ ki := 1/2 })
        ({ auto_mode := false, initialized := true }) true 50) 0 1).1
      = 50 :=
  ⟨(set_auto_mode_bumpless ({ ki := 1/2 })
      ({ auto_mode := false, initialized := true }) 50 1 rfl).1,
    (set_auto_mode_bumpless ({ ki := 1/2 })
      ({ auto_mode := false, initialized := true }) 50 1 rfl).2
      (by norm_num) rfl rfl rfl (by norm_num)
      (by rw [abs_of_nonneg] <;> norm_num) (by norm_num) (by norm_num)⟩

end PLC
